import Mathlib

/-!
Verification of the seed serialization pipeline (`seed/serialize.py`).

The Python module loads a JSON seed document, validates it (per-study
probability-weight totals and channel/platform allow-lists), transforms it
into a `VariationsSeed` protobuf message, and writes a serial-number file
followed by the binary seed file.

Embedding conventions:
* A parsed JSON object is modelled by a structure whose fields are `Option`s:
  a missing key is `none`, and a Python `KeyError` (unchecked `dict` lookup)
  is modelled by `Option.none` propagating through the computation.
* The protobuf message tree is modelled by plain structures; enum wire codes
  are modelled symbolically (the generated `proto/*_pb2` modules are not part
  of the repository's sources).
* `hashlib.md5(...).hexdigest()` is embedded as an MD5 implementation over the
  byte list of the input string (the input, `str(time.time())`, is ASCII, so
  code points coincide with UTF-8 bytes).
* `main` is modelled as a function from the wall-clock string and the parsed
  document to an exit code together with the ordered trace of file writes.
-/

/-- `TOTAL_PROBA = 100`. -/
def TOTAL_PROBA : Int := 100

/-- `PLATFORMS`: the validator's allowed platform names. -/
def PLATFORMS : List String := ["WINDOWS", "MAC", "LINUX", "IOS", "ANDROID"]

/-- `CHANNELS`: the validator's allowed channel names. -/
def CHANNELS : List String := ["UNKNOWN", "NIGHTLY", "BETA", "RELEASE"]

/-- Modelled from the spec: wire-format channel enum codes of the external
protobuf schema (`study_pb2.Study.Channel`); the generated protobuf modules
are not part of the repository sources, so the codes are kept symbolic. -/
inductive WChannel where
  | CANARY
  | DEV
  | BETA
  | STABLE
deriving DecidableEq, Repr

/-- Modelled from the spec: wire-format platform enum codes of the external
protobuf schema (`study_pb2.Study.Platform`). -/
inductive WPlatform where
  | PLATFORM_WINDOWS
  | PLATFORM_MAC
  | PLATFORM_LINUX
  | PLATFORM_IOS
  | PLATFORM_ANDROID
deriving DecidableEq, Repr

/-- Modelled from the spec: wire-format consistency codes
(`study_pb2.Study.Consistency`). -/
inductive WConsistency where
  | PERMANENT
deriving DecidableEq, Repr

/-- Modelled from the spec: wire-format activation-type codes
(`study_pb2.Study.ActivationType`). -/
inductive WActivationType where
  | ACTIVATE_ON_STARTUP
deriving DecidableEq, Repr

/-- `SUPPORTED_CHANNELS`: the transformer's channel mapping table. -/
def SUPPORTED_CHANNELS : List (String × WChannel) :=
  [("NIGHTLY", WChannel.CANARY),
   ("DEV", WChannel.DEV),
   ("BETA", WChannel.BETA),
   ("RELEASE", WChannel.STABLE)]

/-- `supported_platforms`: the transformer's platform mapping table
(rebuilt on each loop iteration in the source; it is a constant dict). -/
def supported_platforms : List (String × WPlatform) :=
  [("WINDOWS", WPlatform.PLATFORM_WINDOWS),
   ("MAC", WPlatform.PLATFORM_MAC),
   ("LINUX", WPlatform.PLATFORM_LINUX),
   ("IOS", WPlatform.PLATFORM_IOS),
   ("ANDROID", WPlatform.PLATFORM_ANDROID)]

/-- A parsed JSON parameter object (`{"name": ..., "value": ...}`);
`none` models a missing key. -/
structure RawParam where
  name : Option String
  value : Option String
deriving DecidableEq, Repr

/-- A parsed JSON feature-association object. -/
structure RawFeatureAssociation where
  enable_feature : Option (List String)
  disable_feature : Option (List String)
deriving DecidableEq, Repr

/-- A parsed JSON experiment object. -/
structure RawExperiment where
  name : Option String
  probability_weight : Option Int
  parameters : Option (List RawParam)
  feature_association : Option RawFeatureAssociation
deriving DecidableEq, Repr

/-- A parsed JSON filter object. -/
structure RawFilter where
  channel : Option (List String)
  platform : Option (List String)
  country : Option (List String)
  min_version : Option String
  max_version : Option String
  min_os_version : Option String
  max_os_version : Option String
deriving DecidableEq, Repr

/-- A parsed JSON study object. -/
structure RawStudy where
  name : Option String
  experiments : Option (List RawExperiment)
  filter : Option RawFilter
deriving DecidableEq, Repr

/-- The parsed JSON seed document. -/
structure RawSeed where
  version : Option Int
  studies : Option (List RawStudy)
deriving DecidableEq, Repr

/-- The diagnostic printed by `validate` when it returns `False`.  Each
constructor carries exactly the data the corresponding `print` interpolates:
the expected total, or the allowed set — never the study name or the sum. -/
inductive VMsg where
  | totalProbaNe (expected : Int)
  | channelNotIn (allowed : List String)
  | platformNotIn (allowed : List String)
deriving DecidableEq, Repr

/-- Outcome of `validate`: `True` with no diagnostic, or `False` together
with the diagnostic printed just before returning. -/
inductive VResult where
  | ok
  | invalid (msg : VMsg)
deriving DecidableEq, Repr

/-- The `total_proba` accumulation loop: sums `experiment['probability_weight']`
over the study's experiments; a missing key raises (`none`). -/
def sumWeights : List RawExperiment → Option Int
  | [] => some 0
  | e :: es => do
      let w ← e.probability_weight
      let rest ← sumWeights es
      pure (w + rest)

/-- The body of `validate`'s loop for one study, in source order: sum the
weights, test the total, then the channel subset, then the platform subset. -/
def validateStudy (study : RawStudy) : Option VResult := do
  let exps ← study.experiments
  let total ← sumWeights exps
  if total ≠ TOTAL_PROBA then
    pure (VResult.invalid (VMsg.totalProbaNe TOTAL_PROBA))
  else do
    let f ← study.filter
    let chs ← f.channel
    if ¬ chs.all (fun c => CHANNELS.contains c) then
      pure (VResult.invalid (VMsg.channelNotIn CHANNELS))
    else do
      let pls ← f.platform
      if ¬ pls.all (fun p => PLATFORMS.contains p) then
        pure (VResult.invalid (VMsg.platformNotIn PLATFORMS))
      else
        pure VResult.ok

/-- `validate`'s loop over the studies: stops at the first failing study. -/
def validateStudies : List RawStudy → Option VResult
  | [] => some VResult.ok
  | s :: rest => do
      let r ← validateStudy s
      match r with
      | VResult.ok => validateStudies rest
      | VResult.invalid m => pure (VResult.invalid m)

/-- `validate(seed)`: `some .ok` models returning `True`, `some (.invalid m)`
models printing `m` and returning `False`, `none` models an uncaught
`KeyError`. -/
def validate (seed : RawSeed) : Option VResult := do
  let studies ← seed.studies
  validateStudies studies

/-- Spec-side well-formedness of one study, written from the spec's words:
the experiments' probability weights sum to exactly 100, the filter's channel
set is a subset of the allowed channel set, and the filter's platform set is
a subset of the allowed platform set (a study whose data is missing satisfies
none of them). -/
def specStudyOK (s : RawStudy) : Bool :=
  (match s.experiments with
   | none => false
   | some es =>
     match sumWeights es with
     | none => false
     | some t => t == TOTAL_PROBA) &&
  (match s.filter with
   | none => false
   | some f =>
     (match f.channel with
      | none => false
      | some cs => cs.all (fun c => CHANNELS.contains c)) &&
     (match f.platform with
      | none => false
      | some ps => ps.all (fun p => PLATFORMS.contains p)))

/-- Spec-side validity of a document: every study is well-formed. -/
def specValid (seed : RawSeed) : Bool :=
  match seed.studies with
  | none => false
  | some l => l.all specStudyOK

/-- Truncation to a 32-bit word. -/
def w32 (n : Nat) : Nat := n % 4294967296

/-- Bitwise complement within 32 bits. -/
def wnot (x : Nat) : Nat := 4294967295 ^^^ x

/-- Left rotation of a 32-bit word. -/
def rotl32 (x s : Nat) : Nat := w32 (x <<< s) ||| (x >>> (32 - s))

/-- The MD5 chaining state: four 32-bit words. -/
structure MDState where
  a : Nat
  b : Nat
  c : Nat
  d : Nat
deriving DecidableEq, Repr

/-- MD5 initial state (RFC 1321). -/
def md5InitState : MDState :=
  ⟨0x67452301, 0xefcdab89, 0x98badcfe, 0x10325476⟩

/-- MD5 sine-derived round constants (RFC 1321). -/
def md5K : List Nat :=
  [0xd76aa478, 0xe8c7b756, 0x242070db, 0xc1bdceee,
   0xf57c0faf, 0x4787c62a, 0xa8304613, 0xfd469501,
   0x698098d8, 0x8b44f7af, 0xffff5bb1, 0x895cd7be,
   0x6b901122, 0xfd987193, 0xa679438e, 0x49b40821,
   0xf61e2562, 0xc040b340, 0x265e5a51, 0xe9b6c7aa,
   0xd62f105d, 0x02441453, 0xd8a1e681, 0xe7d3fbc8,
   0x21e1cde6, 0xc33707d6, 0xf4d50d87, 0x455a14ed,
   0xa9e3e905, 0xfcefa3f8, 0x676f02d9, 0x8d2a4c8a,
   0xfffa3942, 0x8771f681, 0x6d9d6122, 0xfde5380c,
   0xa4beea44, 0x4bdecfa9, 0xf6bb4b60, 0xbebfbc70,
   0x289b7ec6, 0xeaa127fa, 0xd4ef3085, 0x04881d05,
   0xd9d4d039, 0xe6db99e5, 0x1fa27cf8, 0xc4ac5665,
   0xf4292244, 0x432aff97, 0xab9423a7, 0xfc93a039,
   0x655b59c3, 0x8f0ccc92, 0xffeff47d, 0x85845dd1,
   0x6fa87e4f, 0xfe2ce6e0, 0xa3014314, 0x4e0811a1,
   0xf7537e82, 0xbd3af235, 0x2ad7d2bb, 0xeb86d391]

/-- MD5 per-round left-rotation amounts (RFC 1321). -/
def md5S : List Nat :=
  [7, 12, 17, 22, 7, 12, 17, 22, 7, 12, 17, 22, 7, 12, 17, 22,
   5, 9, 14, 20, 5, 9, 14, 20, 5, 9, 14, 20, 5, 9, 14, 20,
   4, 11, 16, 23, 4, 11, 16, 23, 4, 11, 16, 23, 4, 11, 16, 23,
   6, 10, 15, 21, 6, 10, 15, 21, 6, 10, 15, 21, 6, 10, 15, 21]

/-- One MD5 round: `M` reads the block's 32-bit words, `i` is the round
index. -/
def md5Round (M : Nat → Nat) (st : MDState) (i : Nat) : MDState :=
  let fg : Nat × Nat :=
    if i < 16 then ((st.b &&& st.c) ||| (wnot st.b &&& st.d), i)
    else if i < 32 then ((st.d &&& st.b) ||| (wnot st.d &&& st.c), (5 * i + 1) % 16)
    else if i < 48 then (st.b ^^^ st.c ^^^ st.d, (3 * i + 5) % 16)
    else (st.c ^^^ (st.b ||| wnot st.d), (7 * i) % 16)
  let x := w32 (st.a + fg.1 + md5K.getD i 0 + M fg.2)
  ⟨st.d, w32 (st.b + rotl32 x (md5S.getD i 0)), st.b, st.c⟩

/-- The `j`-th little-endian 32-bit word of a 64-byte block. -/
def md5WordAt (block : List Nat) (j : Nat) : Nat :=
  block.getD (4 * j) 0 + 256 * block.getD (4 * j + 1) 0 +
    65536 * block.getD (4 * j + 2) 0 + 16777216 * block.getD (4 * j + 3) 0

/-- Process one 64-byte block: 64 rounds, then add the previous state. -/
def md5Block (st : MDState) (block : List Nat) : MDState :=
  let r := (List.range 64).foldl (md5Round (md5WordAt block)) st
  ⟨w32 (st.a + r.a), w32 (st.b + r.b), w32 (st.c + r.c), w32 (st.d + r.d)⟩

/-- Process a padded message, 64 bytes at a time. -/
def md5ProcessBlocks (st : MDState) : List Nat → MDState
  | [] => st
  | b :: rest => md5ProcessBlocks (md5Block st (b :: rest.take 63)) (rest.drop 63)
  termination_by l => l.length
  decreasing_by simp [List.length_drop]; omega

/-- The eight little-endian length bytes for a message of `n` bits. -/
def md5LengthBytes (n : Nat) : List Nat :=
  (List.range 8).map (fun i => n / 256 ^ i % 256)

/-- MD5 padding: a `0x80` byte, zeros to 56 mod 64, then the bit length. -/
def md5Pad (msg : List Nat) : List Nat :=
  msg ++ 128 :: (List.replicate ((119 - msg.length % 64) % 64) 0 ++
    md5LengthBytes (8 * msg.length))

/-- The four little-endian bytes of a 32-bit word. -/
def wordBytesLE (w : Nat) : List Nat :=
  [w % 256, w / 256 % 256, w / 65536 % 256, w / 16777216 % 256]

/-- The sixteen digest bytes of a final MD5 state. -/
def md5DigestBytes (st : MDState) : List Nat :=
  wordBytesLE st.a ++ wordBytesLE st.b ++ wordBytesLE st.c ++ wordBytesLE st.d

/-- The lowercase hexadecimal digit alphabet. -/
def hexDigits : List Char := (List.range 16).map Nat.digitChar

/-- The hexadecimal digit of a nibble (only ever applied below 16, where
`Nat.digitChar` is exactly the lowercase hex table). -/
def hexChar (n : Nat) : Char := Nat.digitChar n

/-- The two hexadecimal digits of a byte. -/
def byteHex (b : Nat) : List Char := [hexChar (b / 16 % 16), hexChar (b % 16)]

/-- `hashlib.md5(msg).hexdigest()` over a byte list. -/
def md5Hexdigest (msg : List Nat) : String :=
  String.mk (((md5DigestBytes (md5ProcessBlocks md5InitState (md5Pad msg))).map byteHex).flatten)

/-- The bytes of `str(time.time()).encode('utf-8')`: the stringified float is
ASCII, so its code points are its UTF-8 bytes. -/
def strBytes (s : String) : List Nat := s.data.map Char.toNat

/-- `get_serial_number()`, with the wall-clock string `str(time.time())`
passed explicitly: the MD5 hex digest of its UTF-8 bytes. -/
def get_serial_number (ts : String) : String := md5Hexdigest (strBytes ts)

/-- A wire-format `Param` message. -/
structure WParam where
  name : String
  value : String
deriving DecidableEq, Repr

/-- A wire-format `FeatureAssociation` message. -/
structure WFeatureAssociation where
  enable_feature : List String
  disable_feature : List String
deriving DecidableEq, Repr

/-- A wire-format `Experiment` message.  `param` is a repeated field (absent
means empty); `feature_association` is a submessage with presence. -/
structure WExperiment where
  name : String
  probability_weight : Int
  param : List WParam
  feature_association : Option WFeatureAssociation
deriving DecidableEq, Repr

/-- A wire-format `Filter` message.  `channel`, `platform` and `country` are
repeated fields; the four version bounds are optional scalar fields. -/
structure WFilter where
  channel : List WChannel
  platform : List WPlatform
  country : List String
  min_version : Option String
  max_version : Option String
  min_os_version : Option String
  max_os_version : Option String
deriving DecidableEq, Repr

/-- A wire-format `Study` message. -/
structure WStudy where
  name : String
  consistency : WConsistency
  activation_type : WActivationType
  experiment : List WExperiment
  filter : WFilter
deriving DecidableEq, Repr

/-- The wire-format `VariationsSeed` message. -/
structure VariationsSeed where
  version : Int
  serial_number : String
  study : List WStudy
deriving DecidableEq, Repr

/-- The parameter loop: each `param_data` must have `name` and `value`. -/
def makeParams : List RawParam → Option (List WParam)
  | [] => some []
  | p :: ps => do
      let n ← p.name
      let v ← p.value
      let rest ← makeParams ps
      pure (⟨n, v⟩ :: rest)

/-- The feature-association loops.  Appending to a protobuf submessage marks
it present; if neither loop appends anything the submessage stays unset, so
presence holds exactly when some feature name was appended. -/
def makeFeatureAssociation (fa : RawFeatureAssociation) : Option WFeatureAssociation :=
  let en := fa.enable_feature.getD []
  let dis := fa.disable_feature.getD []
  if en.isEmpty && dis.isEmpty then none else some ⟨en, dis⟩

/-- The experiment loop body: `name` and `probability_weight` are unchecked
lookups; `parameters` and `feature_association` are guarded by `in`. -/
def makeExperiment (e : RawExperiment) : Option WExperiment := do
  let n ← e.name
  let w ← e.probability_weight
  let ps ← match e.parameters with
    | none => some []
    | some pds => makeParams pds
  pure ⟨n, w, ps, (match e.feature_association with
    | none => none
    | some fad => makeFeatureAssociation fad)⟩

/-- The experiment loop. -/
def makeExperiments : List RawExperiment → Option (List WExperiment)
  | [] => some []
  | e :: es => do
      let w ← makeExperiment e
      let rest ← makeExperiments es
      pure (w :: rest)

/-- The channel loop: `SUPPORTED_CHANNELS[channel]` is an unchecked dict
lookup; an unmapped name raises (`none`). -/
def makeChannels : List String → Option (List WChannel)
  | [] => some []
  | c :: cs => do
      let wc ← SUPPORTED_CHANNELS.lookup c
      let rest ← makeChannels cs
      pure (wc :: rest)

/-- The platform loop: `supported_platforms[platform]` is an unchecked dict
lookup. -/
def makePlatforms : List String → Option (List WPlatform)
  | [] => some []
  | p :: ps => do
      let wp ← supported_platforms.lookup p
      let rest ← makePlatforms ps
      pure (wp :: rest)

/-- The filter section of the study loop: required `channel` and `platform`
lists mapped through the enum tables, then the optional attributes, each
copied only under its `in` guard. -/
def makeFilter (f : RawFilter) : Option WFilter := do
  let chs ← f.channel
  let wchs ← makeChannels chs
  let pls ← f.platform
  let wpls ← makePlatforms pls
  pure ⟨wchs, wpls, f.country.getD [],
        f.min_version, f.max_version, f.min_os_version, f.max_os_version⟩

/-- The study loop body: copies `name`, sets the two fixed policy fields,
then builds the experiments and the filter. -/
def makeStudy (s : RawStudy) : Option WStudy := do
  let n ← s.name
  let exps ← s.experiments
  let wexps ← makeExperiments exps
  let f ← s.filter
  let wf ← makeFilter f
  pure ⟨n, WConsistency.PERMANENT, WActivationType.ACTIVATE_ON_STARTUP, wexps, wf⟩

/-- The study loop. -/
def makeStudies : List RawStudy → Option (List WStudy)
  | [] => some []
  | s :: ss => do
      let w ← makeStudy s
      let rest ← makeStudies ss
      pure (w :: rest)

/-- `make_variations_seed_message(seed_data)`, with the wall-clock string
passed explicitly: sets `version`, generates the serial number once, then
builds the studies.  `none` models an uncaught `KeyError`. -/
def make_variations_seed_message (ts : String) (seed_data : RawSeed) :
    Option VariationsSeed := do
  let version ← seed_data.version
  let serialnumber := get_serial_number ts
  let studies ← seed_data.studies
  let wstudies ← makeStudies studies
  pure ⟨version, serialnumber, wstudies⟩

/-- A file write performed by `main`: the serial-number file
(`./serialnumber`) or the binary seed file (`./seed.bin`, which receives the
encoding of the message). -/
inductive WriteEvent where
  | writeSerial (serialnumber : String)
  | writeSeedBin (seed_message : VariationsSeed)
deriving DecidableEq, Repr

/-- `main()` after the document is parsed (named `main_run` because Lean
reserves `main`): validate; on failure return `-1` with no writes; on success
build the message, write the serial-number file, then write the seed file,
and return `0`.  `none` models an uncaught exception (itself a non-zero
process exit with no writes). -/
def main_run (ts : String) (seed_data : RawSeed) : Option (Int × List WriteEvent) := do
  let v ← validate seed_data
  match v with
  | VResult.invalid _ => pure (-1, [])
  | VResult.ok => do
      let seed_message ← make_variations_seed_message ts seed_data
      pure (0, [WriteEvent.writeSerial seed_message.serial_number,
                WriteEvent.writeSeedBin seed_message])

/-- An experiment object with only the required keys. -/
def mkExp (n : String) (w : Int) : RawExperiment := ⟨some n, some w, none, none⟩

/-- A filter object with only the required keys. -/
def mkFilter (chs pls : List String) : RawFilter :=
  ⟨some chs, some pls, none, none, none, none, none⟩

/-- A study object with all required keys. -/
def mkStudy (n : String) (es : List RawExperiment) (f : RawFilter) : RawStudy :=
  ⟨some n, some es, some f⟩

/-- The spec's concrete scenario: one study `"Study1"`, experiments `A`/60 and
`B`/40, filter channel `["RELEASE"]`, platform `["WINDOWS"]`. -/
def study1Doc : RawSeed :=
  ⟨some 1, some [mkStudy "Study1" [mkExp "A" 60, mkExp "B" 40]
                   (mkFilter ["RELEASE"] ["WINDOWS"])]⟩

/-- The expected transformed message for `study1Doc`. -/
def study1Out (ts : String) : VariationsSeed :=
  ⟨1, get_serial_number ts,
   [⟨"Study1", WConsistency.PERMANENT, WActivationType.ACTIVATE_ON_STARTUP,
     [⟨"A", 60, [], none⟩, ⟨"B", 40, [], none⟩],
     ⟨[WChannel.STABLE], [WPlatform.PLATFORM_WINDOWS], [],
      none, none, none, none⟩⟩]⟩

/-- The spec's failing scenario: `"Study1"` with weights 60 and 30. -/
def study1BadDoc : RawSeed :=
  ⟨some 1, some [mkStudy "Study1" [mkExp "A" 60, mkExp "B" 30]
                   (mkFilter ["RELEASE"] ["WINDOWS"])]⟩

/-- A differently named study whose weights sum to 175. -/
def otherBadDoc : RawSeed :=
  ⟨some 7, some [mkStudy "Another" [mkExp "X" 175]
                   (mkFilter ["BETA"] ["MAC"])]⟩

/-- A document whose first study passes validation and whose second study is
the `"Study1"`/weights-60-and-30 failure. -/
def prefixBadDoc : RawSeed :=
  ⟨some 1, some [mkStudy "Passing" [mkExp "P" 100] (mkFilter ["BETA"] ["MAC"]),
                 mkStudy "Study1" [mkExp "A" 60, mkExp "B" 30]
                   (mkFilter ["RELEASE"] ["WINDOWS"])]⟩

/-- A document whose only channel is `UNKNOWN`: legal for the validator's
`CHANNELS`, absent from the transformer's `SUPPORTED_CHANNELS`. -/
def unknownChannelDoc : RawSeed :=
  ⟨some 1, some [mkStudy "S" [mkExp "A" 100] (mkFilter ["UNKNOWN"] ["WINDOWS"])]⟩

/-- A document with a negative probability weight whose per-study sum is
still 100. -/
def negWeightDoc : RawSeed :=
  ⟨some 1, some [mkStudy "S" [mkExp "A" 150, mkExp "B" (-50)]
                   (mkFilter ["RELEASE"] ["WINDOWS"])]⟩

/-- A document without the `studies` key. -/
def noStudiesDoc : RawSeed := ⟨some 1, none⟩

/-- A document whose study lacks the `experiments` key. -/
def noExperimentsDoc : RawSeed :=
  ⟨some 1, some [⟨some "S", none, some (mkFilter ["RELEASE"] ["WINDOWS"])⟩]⟩

/-- A document whose experiment lacks the `probability_weight` key. -/
def noWeightDoc : RawSeed :=
  ⟨some 1, some [⟨some "S", some [⟨some "A", none, none, none⟩],
                  some (mkFilter ["RELEASE"] ["WINDOWS"])⟩]⟩

/-- A document whose study lacks the `filter` key. -/
def noFilterDoc : RawSeed :=
  ⟨some 1, some [⟨some "S", some [mkExp "A" 100], none⟩]⟩

/-- A document whose filter lacks the `channel` key. -/
def noChannelDoc : RawSeed :=
  ⟨some 1, some [⟨some "S", some [mkExp "A" 100],
                  some ⟨none, some ["WINDOWS"], none, none, none, none, none⟩⟩]⟩

/-- A document whose filter lacks the `platform` key. -/
def noPlatformDoc : RawSeed :=
  ⟨some 1, some [⟨some "S", some [mkExp "A" 100],
                  some ⟨some ["RELEASE"], none, none, none, none, none, none⟩⟩]⟩

/-- A document exercising every optional attribute. -/
def richDoc : RawSeed :=
  ⟨some 2,
   some [mkStudy "Rich"
          [⟨some "A", some 100,
            some [⟨some "p1", some "v1"⟩, ⟨some "p2", some "v2"⟩],
            some ⟨some ["f1", "f2"], some ["f3"]⟩⟩]
          ⟨some ["NIGHTLY", "BETA"], some ["MAC", "LINUX"],
           some ["us", "de"], some "1.2", some "3.4", some "10", some "12"⟩]⟩

/-- The expected transformed message for `richDoc`. -/
def richOut (ts : String) : VariationsSeed :=
  ⟨2, get_serial_number ts,
   [⟨"Rich", WConsistency.PERMANENT, WActivationType.ACTIVATE_ON_STARTUP,
     [⟨"A", 100, [⟨"p1", "v1"⟩, ⟨"p2", "v2"⟩], some ⟨["f1", "f2"], ["f3"]⟩⟩],
     ⟨[WChannel.CANARY, WChannel.BETA],
      [WPlatform.PLATFORM_MAC, WPlatform.PLATFORM_LINUX],
      ["us", "de"], some "1.2", some "3.4", some "10", some "12"⟩⟩]⟩

/-- A wire parameter copies the input parameter's name/value pair. -/
def ParamCorresponds (p : RawParam) (q : WParam) : Prop :=
  p.name = some q.name ∧ p.value = some q.value

/-- A wire experiment copies the input experiment's name and weight, copies
the parameters when present, and leaves absent optional attributes unset. -/
def ExperimentCorresponds (e : RawExperiment) (w : WExperiment) : Prop :=
  e.name = some w.name ∧
  e.probability_weight = some w.probability_weight ∧
  (e.parameters = none → w.param = []) ∧
  (∀ ps, e.parameters = some ps → List.Forall₂ ParamCorresponds ps w.param) ∧
  (e.feature_association = none → w.feature_association = none)

/-- A wire filter maps the input filter's channels and platforms pointwise
through the enum tables, in input order, and preserves the optional
attributes. -/
def FilterCorresponds (f : RawFilter) (w : WFilter) : Prop :=
  (∃ cs, f.channel = some cs ∧
     List.Forall₂ (fun c wc => SUPPORTED_CHANNELS.lookup c = some wc) cs w.channel) ∧
  (∃ ps, f.platform = some ps ∧
     List.Forall₂ (fun p wp => supported_platforms.lookup p = some wp) ps w.platform) ∧
  (f.country = none → w.country = []) ∧
  (∀ l, f.country = some l → w.country = l) ∧
  w.min_version = f.min_version ∧
  w.max_version = f.max_version ∧
  w.min_os_version = f.min_os_version ∧
  w.max_os_version = f.max_os_version

/-- A wire study copies the input study's name, carries the two fixed policy
codes, and transforms its experiments and filter. -/
def StudyCorresponds (s : RawStudy) (w : WStudy) : Prop :=
  s.name = some w.name ∧
  w.consistency = WConsistency.PERMANENT ∧
  w.activation_type = WActivationType.ACTIVATE_ON_STARTUP ∧
  (∃ es, s.experiments = some es ∧
     List.Forall₂ ExperimentCorresponds es w.experiment) ∧
  (∃ f, s.filter = some f ∧ FilterCorresponds f w.filter)

/-- The optional-attribute slice of experiment correspondence: present
attributes are copied, absent attributes stay absent, and a present output
attribute can only come from a present input attribute. -/
def ExperimentOptCorresponds (e : RawExperiment) (w : WExperiment) : Prop :=
  (e.parameters = none → w.param = []) ∧
  (∀ ps, e.parameters = some ps → List.Forall₂ ParamCorresponds ps w.param) ∧
  (e.feature_association = none → w.feature_association = none) ∧
  (∀ q, w.feature_association = some q → e.feature_association ≠ none)

/-- The optional-attribute slice of filter correspondence. -/
def FilterOptCorresponds (f : RawFilter) (w : WFilter) : Prop :=
  (f.country = none → w.country = []) ∧
  (∀ l, f.country = some l → w.country = l) ∧
  w.min_version = f.min_version ∧
  w.max_version = f.max_version ∧
  w.min_os_version = f.min_os_version ∧
  w.max_os_version = f.max_os_version

/-- The optional-attribute slice of study correspondence. -/
def StudyOptCorresponds (s : RawStudy) (w : WStudy) : Prop :=
  (∃ es, s.experiments = some es ∧
     List.Forall₂ ExperimentOptCorresponds es w.experiment) ∧
  (∃ f, s.filter = some f ∧ FilterOptCorresponds f w.filter)

/-- For a study on which `validate`'s loop body terminates normally, it
reports success exactly when the study meets the spec's three conditions. -/
theorem validateStudy_ok_iff (s : RawStudy) (r : VResult)
    (h : validateStudy s = some r) : r = VResult.ok ↔ specStudyOK s = true := by
  simp only [validateStudy, bind, Option.bind_eq_some] at h
  obtain ⟨exps, hexp, h⟩ := h
  obtain ⟨t, hsum, h⟩ := h
  split_ifs at h with ht
  · simp only [pure, Option.some.injEq] at h
    subst h
    simp [specStudyOK, hexp, hsum, ht]
  · simp only [Option.bind_eq_some] at h
    obtain ⟨f, hf, h⟩ := h
    obtain ⟨chs, hch, h⟩ := h
    split_ifs at h with hc
    · simp only [Option.bind_eq_some] at h
      obtain ⟨pls, hpl, h⟩ := h
      split_ifs at h with hp
      · simp only [pure, Option.some.injEq] at h
        subst h
        simp at hc hp
        simp [specStudyOK, hexp, hsum, hf, hch, hpl, not_not.mp ht]
        exact ⟨hc, hp⟩
      · simp only [pure, Option.some.injEq] at h
        subst h
        simp at hp
        simp [specStudyOK, hexp, hsum, hf, hch, hpl]
        intro _ _
        simpa using hp
    · simp only [pure, Option.some.injEq] at h
      subst h
      simp at hc
      simp [specStudyOK, hexp, hsum, hf, hch]
      intro _ hmem
      obtain ⟨x, hx, hnx⟩ := hc
      exact absurd (hmem x hx) hnx

/-- The study loop reports success exactly when every study in the list
meets the spec's conditions (it stops at the first failing study, which
then falsifies the conjunction). -/
theorem validateStudies_ok_iff (l : List RawStudy) (r : VResult)
    (h : validateStudies l = some r) : r = VResult.ok ↔ l.all specStudyOK = true := by
  induction l generalizing r with
  | nil =>
    simp only [validateStudies, Option.some.injEq] at h
    subst h
    simp
  | cons s rest ih =>
    simp only [validateStudies, bind, Option.bind_eq_some] at h
    obtain ⟨rs, hs, h⟩ := h
    cases rs with
    | ok =>
      have hspec : specStudyOK s = true := (validateStudy_ok_iff s _ hs).mp rfl
      rw [List.all_cons, hspec, Bool.true_and]
      exact ih r h
    | invalid m =>
      have hspec := validateStudy_ok_iff s _ hs
      simp at hspec
      simp only [pure, Option.some.injEq] at h
      subst h
      simp [List.all_cons, hspec]

/-- C1: for every document on which `validate` terminates normally, it
succeeds if and only if every study's experiment probability weights sum to
exactly 100, its filter's channel set is a subset of the allowed channel
set, and its filter's platform set is a subset of the allowed platform set;
it fails whenever any study violates any of the three conditions. -/
theorem validate_ok_iff_spec (seed : RawSeed) (r : VResult)
    (h : validate seed = some r) : r = VResult.ok ↔ specValid seed = true := by
  simp only [validate, bind, Option.bind_eq_some] at h
  obtain ⟨l, hst, h⟩ := h
  unfold specValid
  rw [hst]
  exact validateStudies_ok_iff l r h

/-- C1 witness: the concrete valid scenario document instantiates the
equivalence. -/
theorem validate_ok_iff_spec_witness :
    VResult.ok = VResult.ok ↔ specValid study1Doc = true :=
  validate_ok_iff_spec study1Doc VResult.ok rfl

/-- The parameter loop copies each name/value pair in input order. -/
theorem makeParams_corresponds (ps : List RawParam) (qs : List WParam)
    (h : makeParams ps = some qs) : List.Forall₂ ParamCorresponds ps qs := by
  induction ps generalizing qs with
  | nil =>
    simp only [makeParams, Option.some.injEq] at h
    subst h
    exact List.Forall₂.nil
  | cons p rest ih =>
    simp only [makeParams, bind, Option.bind_eq_some] at h
    obtain ⟨n, hn, h⟩ := h
    obtain ⟨v, hv, h⟩ := h
    obtain ⟨qs', hqs, h⟩ := h
    simp only [pure, Option.some.injEq] at h
    subst h
    exact List.Forall₂.cons ⟨hn, hv⟩ (ih qs' hqs)

/-- The experiment loop body establishes experiment correspondence. -/
theorem makeExperiment_corresponds (e : RawExperiment) (w : WExperiment)
    (h : makeExperiment e = some w) : ExperimentCorresponds e w := by
  simp only [makeExperiment, bind, Option.bind_eq_some] at h
  obtain ⟨n, hn, h⟩ := h
  obtain ⟨wt, hw, h⟩ := h
  cases hpar : e.parameters with
  | none =>
    rw [hpar] at h
    simp only [pure, Option.some_bind, Option.some.injEq] at h
    subst h
    refine ⟨hn, hw, fun _ => rfl, ?_, ?_⟩
    · intro ps hps
      rw [hpar] at hps
      exact absurd hps (by simp)
    · intro hfa
      simp [hfa]
  | some pds =>
    rw [hpar] at h
    simp only [Option.bind_eq_some] at h
    obtain ⟨qs, hqs, h⟩ := h
    simp only [pure, Option.some.injEq] at h
    subst h
    refine ⟨hn, hw, ?_, ?_, ?_⟩
    · intro hnone
      rw [hpar] at hnone
      exact absurd hnone (by simp)
    · intro ps hps
      rw [hpar] at hps
      injection hps with hh
      subst hh
      exact makeParams_corresponds _ qs hqs
    · intro hfa
      simp [hfa]

/-- The experiment loop transforms the experiments pointwise. -/
theorem makeExperiments_corresponds (es : List RawExperiment) (ws : List WExperiment)
    (h : makeExperiments es = some ws) : List.Forall₂ ExperimentCorresponds es ws := by
  induction es generalizing ws with
  | nil =>
    simp only [makeExperiments, Option.some.injEq] at h
    subst h
    exact List.Forall₂.nil
  | cons e rest ih =>
    simp only [makeExperiments, bind, Option.bind_eq_some] at h
    obtain ⟨w, hw, h⟩ := h
    obtain ⟨ws', hws, h⟩ := h
    simp only [pure, Option.some.injEq] at h
    subst h
    exact List.Forall₂.cons (makeExperiment_corresponds e w hw) (ih ws' hws)

/-- The channel loop maps each channel name through the table, in order. -/
theorem makeChannels_corresponds (cs : List String) (ws : List WChannel)
    (h : makeChannels cs = some ws) :
    List.Forall₂ (fun c wc => SUPPORTED_CHANNELS.lookup c = some wc) cs ws := by
  induction cs generalizing ws with
  | nil =>
    simp only [makeChannels, Option.some.injEq] at h
    subst h
    exact List.Forall₂.nil
  | cons c rest ih =>
    simp only [makeChannels, bind, Option.bind_eq_some] at h
    obtain ⟨wc, hwc, h⟩ := h
    obtain ⟨ws', hws, h⟩ := h
    simp only [pure, Option.some.injEq] at h
    subst h
    exact List.Forall₂.cons hwc (ih ws' hws)

/-- The platform loop maps each platform name through the table, in order. -/
theorem makePlatforms_corresponds (ps : List String) (ws : List WPlatform)
    (h : makePlatforms ps = some ws) :
    List.Forall₂ (fun p wp => supported_platforms.lookup p = some wp) ps ws := by
  induction ps generalizing ws with
  | nil =>
    simp only [makePlatforms, Option.some.injEq] at h
    subst h
    exact List.Forall₂.nil
  | cons p rest ih =>
    simp only [makePlatforms, bind, Option.bind_eq_some] at h
    obtain ⟨wp, hwp, h⟩ := h
    obtain ⟨ws', hws, h⟩ := h
    simp only [pure, Option.some.injEq] at h
    subst h
    exact List.Forall₂.cons hwp (ih ws' hws)

/-- The filter section establishes filter correspondence. -/
theorem makeFilter_corresponds (f : RawFilter) (w : WFilter)
    (h : makeFilter f = some w) : FilterCorresponds f w := by
  simp only [makeFilter, bind, Option.bind_eq_some] at h
  obtain ⟨cs, hcs, h⟩ := h
  obtain ⟨wcs, hwcs, h⟩ := h
  obtain ⟨ps, hps, h⟩ := h
  obtain ⟨wps, hwps, h⟩ := h
  simp only [pure, Option.some.injEq] at h
  subst h
  refine ⟨⟨cs, hcs, makeChannels_corresponds cs wcs hwcs⟩,
          ⟨ps, hps, makePlatforms_corresponds ps wps hwps⟩,
          ?_, ?_, rfl, rfl, rfl, rfl⟩
  · intro hnone
    simp [hnone]
  · intro l hl
    simp [hl]

/-- The study loop body establishes study correspondence. -/
theorem makeStudy_corresponds (s : RawStudy) (w : WStudy)
    (h : makeStudy s = some w) : StudyCorresponds s w := by
  simp only [makeStudy, bind, Option.bind_eq_some] at h
  obtain ⟨n, hn, h⟩ := h
  obtain ⟨es, hes, h⟩ := h
  obtain ⟨wes, hwes, h⟩ := h
  obtain ⟨f, hf, h⟩ := h
  obtain ⟨wf, hwf, h⟩ := h
  simp only [pure, Option.some.injEq] at h
  subst h
  exact ⟨hn, rfl, rfl, ⟨es, hes, makeExperiments_corresponds es wes hwes⟩,
         ⟨f, hf, makeFilter_corresponds f wf hwf⟩⟩

/-- The study loop transforms the studies pointwise. -/
theorem makeStudies_corresponds (l : List RawStudy) (ws : List WStudy)
    (h : makeStudies l = some ws) : List.Forall₂ StudyCorresponds l ws := by
  induction l generalizing ws with
  | nil =>
    simp only [makeStudies, Option.some.injEq] at h
    subst h
    exact List.Forall₂.nil
  | cons s rest ih =>
    simp only [makeStudies, bind, Option.bind_eq_some] at h
    obtain ⟨w, hw, h⟩ := h
    obtain ⟨ws', hws, h⟩ := h
    simp only [pure, Option.some.injEq] at h
    subst h
    exact List.Forall₂.cons (makeStudy_corresponds s w hw) (ih ws' hws)

/-- Whenever the transformer produces a message, it copies the version,
carries the generated serial number, and transforms the studies pointwise. -/
theorem make_seed_correspondence (ts : String) (seed : RawSeed) (out : VariationsSeed)
    (h : make_variations_seed_message ts seed = some out) :
    seed.version = some out.version ∧
    out.serial_number = get_serial_number ts ∧
    ∃ l, seed.studies = some l ∧ List.Forall₂ StudyCorresponds l out.study := by
  simp only [make_variations_seed_message, bind, Option.bind_eq_some] at h
  obtain ⟨v, hv, h⟩ := h
  obtain ⟨l, hl, h⟩ := h
  obtain ⟨ws, hws, h⟩ := h
  simp only [pure, Option.some.injEq] at h
  subst h
  exact ⟨hv, rfl, l, hl, makeStudies_corresponds l ws hws⟩

/-- Full study correspondence implies its optional-attribute slice. -/
theorem StudyCorresponds.toOpt {s : RawStudy} {w : WStudy}
    (h : StudyCorresponds s w) : StudyOptCorresponds s w := by
  obtain ⟨-, -, -, ⟨es, hes, hfor⟩, ⟨f, hf, hfc⟩⟩ := h
  refine ⟨⟨es, hes, hfor.imp ?_⟩, ⟨f, hf, ?_⟩⟩
  · intro e w he
    obtain ⟨-, -, h3, h4, h5⟩ := he
    refine ⟨h3, h4, h5, ?_⟩
    intro q hq hnone
    rw [h5 hnone] at hq
    exact Option.noConfusion hq
  · obtain ⟨-, -, hc1, hc2, hm1, hm2, hm3, hm4⟩ := hfc
    exact ⟨hc1, hc2, hm1, hm2, hm3, hm4⟩

/-- Every output of the nibble-to-digit map on a nibble is a hexadecimal
digit. -/
theorem hexChar_mem {n : Nat} (hn : n < 16) : hexChar n ∈ hexDigits := by
  simp only [hexDigits, hexChar, List.mem_map]
  exact ⟨n, List.mem_range.mpr hn, rfl⟩

/-- Every character produced by byte-to-hex formatting is a hexadecimal
digit. -/
theorem mem_byteHex_flatten (l : List Nat) (c : Char)
    (hc : c ∈ (l.map byteHex).flatten) : c ∈ hexDigits := by
  induction l with
  | nil => simp at hc
  | cons b bs ih =>
    simp only [List.map_cons, List.flatten_cons, List.mem_append] at hc
    rcases hc with hc | hc
    · simp only [byteHex, List.mem_cons, List.not_mem_nil, or_false] at hc
      rcases hc with rfl | rfl
      · exact hexChar_mem (Nat.mod_lt _ (by decide))
      · exact hexChar_mem (Nat.mod_lt _ (by decide))
    · exact ih hc

/-- C2: the claim holds in the spec but not in the code — a document whose
only channel is `UNKNOWN` passes validation (`UNKNOWN` is in the validator's
`CHANNELS`) yet has no entry in the transformer's `SUPPORTED_CHANNELS`
table, so transformation hits an unchecked lookup failure; conversely `DEV`
is transformer-legal but validator-illegal, so the two allowed sets are not
equal. -/
theorem unknown_channel_validated_but_unmapped :
    validate unknownChannelDoc = some VResult.ok ∧
    "UNKNOWN" ∈ CHANNELS ∧
    SUPPORTED_CHANNELS.lookup "UNKNOWN" = none ∧
    make_variations_seed_message "1700000000.0" unknownChannelDoc = none ∧
    "DEV" ∉ CHANNELS ∧
    SUPPORTED_CHANNELS.lookup "DEV" = some WChannel.DEV :=
  ⟨rfl, by decide, rfl, rfl, by decide, rfl⟩

/-- C3 counterexample: a validated document (channel `UNKNOWN`) on which the
transformer produces no output at all, so the claim's unconditional
description of the output fails for it. -/
theorem transform_fails_on_validated_doc :
    validate unknownChannelDoc = some VResult.ok ∧
    make_variations_seed_message "1700000000.0" unknownChannelDoc = none :=
  ⟨rfl, rfl⟩

/-- C3 (amended): for every validated document on which the transformer
succeeds, it copies `version` and the serial number verbatim, copies each
study's name, unconditionally sets consistency `PERMANENT` and activation
`ACTIVATE_ON_STARTUP`, copies each experiment's name and
`probability_weight`, and maps each channel and platform name through the
enum tables pointwise in input order; `RELEASE` maps to the `STABLE` wire
code and `WINDOWS` to the `PLATFORM_WINDOWS` wire code. -/
theorem transform_copies_validated_doc (ts : String) (seed : RawSeed)
    (out : VariationsSeed)
    (hv : validate seed = some VResult.ok)
    (h : make_variations_seed_message ts seed = some out) :
    seed.version = some out.version ∧
    out.serial_number = get_serial_number ts ∧
    (∃ l, seed.studies = some l ∧ List.Forall₂ StudyCorresponds l out.study) ∧
    SUPPORTED_CHANNELS.lookup "RELEASE" = some WChannel.STABLE ∧
    supported_platforms.lookup "WINDOWS" = some WPlatform.PLATFORM_WINDOWS := by
  obtain ⟨h1, h2, h3⟩ := make_seed_correspondence ts seed out h
  exact ⟨h1, h2, h3, rfl, rfl⟩

/-- C3 witness: the concrete scenario document instantiates the amended
claim. -/
theorem transform_copies_validated_doc_witness :
    study1Doc.version = some (study1Out "1700000000.0").version ∧
    (study1Out "1700000000.0").serial_number = get_serial_number "1700000000.0" ∧
    (∃ l, study1Doc.studies = some l ∧
       List.Forall₂ StudyCorresponds l (study1Out "1700000000.0").study) ∧
    SUPPORTED_CHANNELS.lookup "RELEASE" = some WChannel.STABLE ∧
    supported_platforms.lookup "WINDOWS" = some WPlatform.PLATFORM_WINDOWS :=
  transform_copies_validated_doc "1700000000.0" study1Doc (study1Out "1700000000.0")
    rfl rfl

/-- C4: the claim states the spec's required ordering, which the code
violates — on a successful run the write trace puts the serial-number file
first and the binary seed file second, so the serial number is observable
before the corresponding binary artifact exists. -/
theorem serialnumber_written_before_seed_bin (ts : String) :
    main_run ts study1Doc =
      some (0, [WriteEvent.writeSerial (get_serial_number ts),
                WriteEvent.writeSeedBin (study1Out ts)]) ∧
    (study1Out ts).serial_number = get_serial_number ts :=
  ⟨rfl, rfl⟩

/-- C5 counterexample: validation succeeds on `unknownChannelDoc`, no I/O is
attempted (so none fails), yet the run crashes in the transformer — a
non-zero exit — refuting "validation succeeds and I/O succeeds implies exit
code 0" as stated. -/
theorem exit_nonzero_after_valid_validation :
    validate unknownChannelDoc = some VResult.ok ∧
    main_run "1700000000.0" unknownChannelDoc = none :=
  ⟨rfl, rfl⟩

/-- C5 (amended): if validation fails, the run exits with the non-zero code
`-1`, transformation is never reached, and no file is written; if validation
and transformation succeed (and I/O succeeds), the exit code is 0. -/
theorem main_run_exit_codes (ts : String) (seed : RawSeed) :
    (∀ m, validate seed = some (VResult.invalid m) →
       main_run ts seed = some (-1, []) ∧ ((-1 : Int) ≠ 0)) ∧
    (validate seed = some VResult.ok →
       ∀ out, make_variations_seed_message ts seed = some out →
         main_run ts seed = some (0,
           [WriteEvent.writeSerial out.serial_number,
            WriteEvent.writeSeedBin out])) := by
  constructor
  · intro m hm
    refine ⟨?_, by decide⟩
    simp [main_run, hm]
  · intro hok out hout
    simp [main_run, hok, hout]

/-- C5 witness: both branches instantiated on concrete documents. -/
theorem main_run_exit_codes_witness :
    (main_run "1700000000.0" study1BadDoc = some (-1, []) ∧ ((-1 : Int) ≠ 0)) ∧
    main_run "1700000000.0" study1Doc =
      some (0, [WriteEvent.writeSerial (study1Out "1700000000.0").serial_number,
                WriteEvent.writeSeedBin (study1Out "1700000000.0")]) :=
  ⟨(main_run_exit_codes "1700000000.0" study1BadDoc).1 (VMsg.totalProbaNe 100) rfl,
   (main_run_exit_codes "1700000000.0" study1Doc).2 rfl (study1Out "1700000000.0") rfl⟩

/-- C6 counterexample: two documents with different study names (`Study1`
vs `Another`) and different actual sums (90 vs 175) fail with the *same*
diagnostic, which carries only the expected total 100 — so the failure
identifies neither the failing study's name nor the actual sum. -/
theorem weight_mismatch_message_uninformative :
    validate study1BadDoc = some (VResult.invalid (VMsg.totalProbaNe 100)) ∧
    validate otherBadDoc = some (VResult.invalid (VMsg.totalProbaNe 100)) ∧
    sumWeights [mkExp "A" 60, mkExp "B" 30] = some 90 ∧
    sumWeights [mkExp "X" 175] = some 175 :=
  ⟨rfl, rfl, rfl, rfl⟩

/-- The study loop walks past every study whose body reports success. -/
theorem validateStudies_append_ok (pre l : List RawStudy)
    (hpre : ∀ p ∈ pre, validateStudy p = some VResult.ok) :
    validateStudies (pre ++ l) = validateStudies l := by
  induction pre with
  | nil => rfl
  | cons p ps ih =>
    have hp := hpre p (List.mem_cons_self p ps)
    simp only [List.cons_append, validateStudies, hp, Option.some_bind]
    exact ih (fun q hq => hpre q (List.mem_cons_of_mem p hq))

/-- C6 (amended): when the first failing study in document order fails on
its experiment weights (every earlier study passes), validation fails, but
with the fixed diagnostic `total_proba != 100` that names neither the study
nor the actual sum; in particular the `Study1`/weights-60-and-30 input fails
with that fixed diagnostic, also behind a passing prefix. -/
theorem weight_mismatch_fixed_diagnostic (seed : RawSeed) (pre : List RawStudy)
    (s : RawStudy) (rest : List RawStudy) (es : List RawExperiment) (t : Int)
    (hst : seed.studies = some (pre ++ s :: rest))
    (hpre : ∀ p ∈ pre, validateStudy p = some VResult.ok)
    (hes : s.experiments = some es)
    (ht : sumWeights es = some t)
    (hne : t ≠ TOTAL_PROBA) :
    validate seed = some (VResult.invalid (VMsg.totalProbaNe TOTAL_PROBA)) := by
  simp only [validate, hst, bind, Option.some_bind]
  rw [validateStudies_append_ok pre (s :: rest) hpre]
  simp [validateStudies, validateStudy, hes, ht, hne]

/-- C6 witness: the `Study1` failure with weights 60 and 30 (sum 90) placed
behind a passing study. -/
theorem weight_mismatch_fixed_diagnostic_witness :
    validate prefixBadDoc = some (VResult.invalid (VMsg.totalProbaNe TOTAL_PROBA)) :=
  weight_mismatch_fixed_diagnostic prefixBadDoc
    [mkStudy "Passing" [mkExp "P" 100] (mkFilter ["BETA"] ["MAC"])]
    (mkStudy "Study1" [mkExp "A" 60, mkExp "B" 30] (mkFilter ["RELEASE"] ["WINDOWS"]))
    [] [mkExp "A" 60, mkExp "B" 30] 90 rfl
    (by intro p hp
        rw [List.mem_singleton] at hp
        subst hp
        rfl)
    rfl rfl (by decide)

/-- C7: for every validated document the transformer produces an output for,
each optional attribute (an experiment's parameters and feature association,
a filter's country list and four version bounds) is copied exactly when
present in the input, and an attribute absent from the input stays
absent/unset in the output. -/
theorem optional_attributes_preserved (ts : String) (seed : RawSeed)
    (out : VariationsSeed)
    (hv : validate seed = some VResult.ok)
    (h : make_variations_seed_message ts seed = some out) :
    ∃ l, seed.studies = some l ∧ List.Forall₂ StudyOptCorresponds l out.study := by
  obtain ⟨-, -, l, hl, hcorr⟩ := make_seed_correspondence ts seed out h
  exact ⟨l, hl, hcorr.imp (fun _ _ hsw => StudyCorresponds.toOpt hsw)⟩

/-- C7 witness: the document exercising every optional attribute. -/
theorem optional_attributes_preserved_witness :
    ∃ l, richDoc.studies = some l ∧
      List.Forall₂ StudyOptCorresponds l (richOut "1700000000.0").study :=
  optional_attributes_preserved "1700000000.0" richDoc (richOut "1700000000.0") rfl rfl

/-- C8: the serial number is a fixed-length (32-character) hexadecimal
string derived from the wall-clock string; the message carries exactly the
generated value, and the value written to the serial-number file equals the
`serial_number` field of the seed message written in the same run. -/
theorem serial_number_flow (ts : String) (seed : RawSeed) (out : VariationsSeed)
    (hv : validate seed = some VResult.ok)
    (h : make_variations_seed_message ts seed = some out) :
    out.serial_number = get_serial_number ts ∧
    (get_serial_number ts).length = 32 ∧
    (∀ c ∈ (get_serial_number ts).data, c ∈ hexDigits) ∧
    main_run ts seed =
      some (0, [WriteEvent.writeSerial out.serial_number,
                WriteEvent.writeSeedBin out]) := by
  obtain ⟨-, h2, -⟩ := make_seed_correspondence ts seed out h
  refine ⟨h2, rfl, ?_, by simp [main_run, hv, h]⟩
  intro c hc
  exact mem_byteHex_flatten
    (md5DigestBytes (md5ProcessBlocks md5InitState (md5Pad (strBytes ts)))) c hc

/-- C8 witness: the concrete scenario run. -/
theorem serial_number_flow_witness :
    (study1Out "1700000000.0").serial_number = get_serial_number "1700000000.0" ∧
    (get_serial_number "1700000000.0").length = 32 ∧
    (∀ c ∈ (get_serial_number "1700000000.0").data, c ∈ hexDigits) ∧
    main_run "1700000000.0" study1Doc =
      some (0, [WriteEvent.writeSerial (study1Out "1700000000.0").serial_number,
                WriteEvent.writeSeedBin (study1Out "1700000000.0")]) :=
  serial_number_flow "1700000000.0" study1Doc (study1Out "1700000000.0") rfl rfl

/-- C9: `validate` is not total over raw documents — for each required key
(`studies`, a study's `experiments` or `filter`, a filter's `channel` or
`platform`, an experiment's `probability_weight`) there is a document
missing exactly that key on which `validate` raises an unchecked lookup
error (`none`) instead of returning a validation verdict. -/
theorem validate_raises_on_missing_keys :
    validate noStudiesDoc = none ∧
    validate noExperimentsDoc = none ∧
    validate noWeightDoc = none ∧
    validate noFilterDoc = none ∧
    validate noChannelDoc = none ∧
    validate noPlatformDoc = none :=
  ⟨rfl, rfl, rfl, rfl, rfl, rfl⟩

/-- C10: `validate` never checks the sign of an individual weight — the
document with weights 150 and −50 (sum 100, allowed channel and platform)
is accepted. -/
theorem validate_accepts_negative_weight :
    validate negWeightDoc = some VResult.ok ∧
    negWeightDoc.studies = some [mkStudy "S" [mkExp "A" 150, mkExp "B" (-50)]
      (mkFilter ["RELEASE"] ["WINDOWS"])] ∧
    (mkExp "B" (-50)).probability_weight = some (-50) ∧
    ((-50 : Int) < 0) :=
  ⟨rfl, rfl, rfl, by decide⟩
